import Mathlib

/-!
Verification development for the realTimeChat repository.

The repository has two cooperating servers:

* a gRPC broadcast server (`server/main.go`): a `ChatServer` holding a
  `connections : map[string]connection` registry guarded by a `sync.RWMutex`,
  with `broadcast`, `sendToUser` and the per-stream handler `RealtimeChat`;
* a WebSocket bridge: a `WSHub` holding a `clients : map[*WSClient]bool`
  registry, a broadcast channel, and per-client buffered `send` channels of
  capacity 256, plus the per-client handlers (`handleJoin`, `handleChat`,
  `handleGRPCMessages`, `sendError`, `broadcastUserJoin`) and the HTTP
  endpoints (`/ws`, `/api/users`).

We embed both shallowly.  Go maps become association lists (key order is
irrelevant to the properties proved); a goroutine-dispatched `stream.Send`
becomes a delivery event `(targetId, message)` recorded in an output list;
per-session control flow becomes a pure function from the received message
sequence to the final registry and the list of delivery events.  Lock usage
is embedded separately as event traces over an explicit lock-event alphabet,
transcribed statement by statement from the Go functions, so that the
read/write-lock discipline can be checked by a boolean evaluator.
-/

/-! ## Definitions: gRPC broadcast server (`server/main.go`) -/

/-- Wire message of the gRPC chat protocol (`pb.ChatMessage`).
Fields used by the server: `User`, `Text`, `RecipientUser`
(empty `RecipientUser` means broadcast). -/
structure ChatMessage where
  user : String
  text : String
  recipientUser : String := ""
  deriving Repr, DecidableEq

/-- Per-client record stored in the registry (Go struct `connection`).  The
gRPC stream itself is identified by the registry key (the client id), so only
the username is kept here. -/
structure Connection where
  user : String
  deriving Repr, DecidableEq

/-- Registry `connections map[string]connection` of `ChatServer`, embedded as
an association list from client id to `Connection`. -/
abbrev Registry := List (String × Connection)

/-- Dispatched send: `sendRoutine(conn.stream, msg, ...)` or a direct
`stream.Send(msg)` is recorded as the pair (target connection id, message). -/
abbrev Delivery := String × ChatMessage

namespace ChatServer

/-- Function `ChatServer.broadcast`: iterate the registry and dispatch `msg`
to every connection whose id differs from `excludeID` (the `continue` branch
skips the excluded id).  Returns the list of dispatched deliveries. -/
def broadcast : Registry → ChatMessage → String → List Delivery
  | [], _, _ => []
  | (id, _conn) :: rest, msg, excludeID =>
    if id = excludeID then
      broadcast rest msg excludeID
    else
      (id, msg) :: broadcast rest msg excludeID

/-- Function `ChatServer.sendToUser`: iterate the registry, dispatch `msg` to
every connection whose `user` equals `username`, and record whether at least
one match was found.  Returns (dispatched deliveries, `found`). -/
def sendToUser : Registry → String → ChatMessage → List Delivery × Bool
  | [], _, _ => ([], false)
  | (id, conn) :: rest, username, msg =>
    let r := sendToUser rest username msg
    if conn.user = username then
      ((id, msg) :: r.1, true)
    else
      r

end ChatServer

/-- System message built in `RealtimeChat` when `sendToUser` found no
recipient: `User 'x' not found or is offline.` -/
def notFoundMsg (recipient : String) : ChatMessage :=
  { user := "System"
    text := "User " ++ "\x27" ++ recipient ++ "\x27" ++ " not found or is offline."
    recipientUser := "" }

/-- System "joined" notice broadcast after a successful handshake. -/
def joinMsg (userName : String) : ChatMessage :=
  { user := "System", text := userName ++ " has joined the chat", recipientUser := "" }

/-- System "left" notice broadcast after the receive loop exits. -/
def leaveMsg (userName : String) : ChatMessage :=
  { user := "System", text := userName ++ " has left the chat", recipientUser := "" }

/-- Private-message branch of the `RealtimeChat` receive loop
(`msg.RecipientUser != ""`): (1) `sendToUser` to the recipient's connections,
(2) unconditionally `stream.Send(msg)` back to the sender, (3) if no recipient
was found, `stream.Send` the "not found" system message to the sender. -/
def handlePrivateMessage (reg : Registry) (senderId : String) (msg : ChatMessage) :
    List Delivery :=
  let r := ChatServer.sendToUser reg msg.recipientUser msg
  r.1 ++ [(senderId, msg)] ++
    (if r.2 then [] else [(senderId, notFoundMsg msg.recipientUser)])

/-- One iteration of the `RealtimeChat` receive loop on a successfully
received message: empty recipient means broadcast (excluding the sender's own
connection id), non-empty recipient means the private-message branch. -/
def handleMessage (reg : Registry) (senderId : String) (msg : ChatMessage) :
    List Delivery :=
  if msg.recipientUser = "" then
    ChatServer.broadcast reg msg senderId
  else
    handlePrivateMessage reg senderId msg

/-- Go map assignment `s.connections[clientID] = conn` on the association
list: replace any entry under the key, keeping keys unique. -/
def registryInsert (reg : Registry) (clientID : String) (conn : Connection) :
    Registry :=
  (clientID, conn) :: reg.filter (fun p => ¬ (p.1 = clientID))

/-- Go `delete(s.connections, clientID)` on the association list. -/
def registryRemove (reg : Registry) (clientID : String) : Registry :=
  reg.filter (fun p => ¬ (p.1 = clientID))

/-- Steps 7–8 of `RealtimeChat` after the receive loop exits: first
`delete(s.connections, clientID)` under the write lock, then broadcast the
"left" notice over the registry that results, with empty `excludeID`. -/
def sessionCleanup (reg : Registry) (clientID userName : String) :
    Registry × List Delivery :=
  let reg2 := registryRemove reg clientID
  (reg2, ChatServer.broadcast reg2 (leaveMsg userName) "")

/-- gRPC status codes used by the server. -/
inductive GrpcCode where
  | invalidArgument
  deriving Repr, DecidableEq

/-- Return value `status.Error(code, message)` of the server handler. -/
structure GrpcError where
  code : GrpcCode
  message : String
  deriving Repr, DecidableEq

/-- Result of one `RealtimeChat` session: the registry after the handler
returns, every delivery it dispatched (in program order), and the returned
error, if any. -/
structure SessionResult where
  finalReg : Registry
  outputs : List Delivery
  retErr : Option GrpcError
  deriving Repr, DecidableEq

/-- Receive loop of `RealtimeChat` in the `Active` state, over the sequence
of messages successfully received on the stream (the sequence ends when
`Recv` reports `io.EOF` or an error, which breaks the loop).  This models a
single session, so the registry seen by each iteration is constant. -/
def sessionLoop (reg : Registry) (senderId : String) :
    List ChatMessage → List Delivery
  | [] => []
  | msg :: rest => handleMessage reg senderId msg ++ sessionLoop reg senderId rest

/-- Handler `ChatServer.RealtimeChat`, embedded over the sequence of messages
the stream delivers (`msgs = []` models `Recv` failing on the very first
read).  `clientID` stands for the freshly generated
`fmt.Sprintf("%s_%p", ...)` identifier. -/
def RealtimeChat (reg : Registry) (clientID : String) (msgs : List ChatMessage) :
    SessionResult :=
  match msgs with
  | [] =>
    { finalReg := reg, outputs := []
      retErr := some ⟨.invalidArgument, "First message must contain user info"⟩ }
  | firstMsg :: rest =>
    if firstMsg.user = "" then
      { finalReg := reg, outputs := []
        retErr := some ⟨.invalidArgument, "Username cannot be empty"⟩ }
    else
      let reg1 := registryInsert reg clientID ⟨firstMsg.user⟩
      let joinOut := ChatServer.broadcast reg1 (joinMsg firstMsg.user) clientID
      let loopOut := sessionLoop reg1 clientID rest
      let cleanup := sessionCleanup reg1 clientID firstMsg.user
      { finalReg := cleanup.1
        outputs := joinOut ++ loopOut ++ cleanup.2
        retErr := none }

/-! ## Definitions: WebSocket bridge (`WSHub` / `WSClient`) -/

/-- JSON wire message of the bridge (Go struct `WSMessage`).  The `users`
field is only populated for `userList` messages. -/
structure WSMessage where
  type : String
  user : String := ""
  text : String := ""
  recipientUser : String := ""
  timestamp : String := ""
  users : List String := []
  deriving Repr, DecidableEq

/-- Capacity of a bridge client's `send` channel:
`make(chan []byte, 256)` in `handleWebSocket`. -/
def sendCap : Nat := 256

/-- Observable state of one `WSClient` object.  `inHub` encodes membership in
the hub's `clients map[*WSClient]bool`; `sendQueue` is the content of the
buffered `send` channel, `sendClosed` whether that channel has been closed,
and `grpcConnOpen` whether the client's upstream `grpc.ClientConn` has been
opened and not yet closed. -/
structure WSClient where
  username : String
  sendQueue : List WSMessage
  sendClosed : Bool
  grpcConnOpen : Bool
  inHub : Bool
  deriving Repr, DecidableEq

/-- All live `WSClient` objects, keyed by object identity (the Go pointer).
The hub's registry is the sub-collection with `inHub = true`; an evicted or
unregistered client object still exists (its pumps still reference it) but is
no longer in the hub. -/
abbrev HubState := List (Nat × WSClient)

/-- Client object built by `handleWebSocket` before registration: no username
yet, fresh empty `send` channel, no upstream connection. -/
def newWSClient : WSClient :=
  { username := "", sendQueue := [], sendClosed := false
    grpcConnOpen := false, inHub := false }

/-- Look a client object up by identity. -/
def lookupClient (hub : HubState) (cid : Nat) : Option WSClient :=
  (hub.find? (fun p => p.1 == cid)).map Prod.snd

namespace WSHub

/-- Case `client := <-h.register` of `WSHub.run`: `h.clients[client] = true`. -/
def registerStep (hub : HubState) (cid : Nat) : HubState :=
  hub.map (fun p => if p.1 = cid then (p.1, { p.2 with inHub := true }) else p)

/-- Case `client := <-h.unregister` of `WSHub.run`: only if the client is
still in `h.clients` does it delete the entry, close the `send` channel, and
close the non-nil `grpc.ClientConn`. -/
def unregisterStep (hub : HubState) (cid : Nat) : HubState :=
  hub.map (fun p =>
    if p.1 = cid ∧ p.2.inHub then
      (p.1, { p.2 with inHub := false, sendClosed := true, grpcConnOpen := false })
    else p)

/-- Per-client action of the `message := <-h.broadcast` case of `WSHub.run`:
a non-blocking send on the client's buffered channel; on a full buffer (the
`default` branch) the hub closes the channel and deletes the client from
`h.clients` — and touches nothing else of the client. -/
def deliverOrEvict (message : WSMessage) (c : WSClient) : WSClient :=
  if c.inHub then
    if c.sendQueue.length < sendCap then
      { c with sendQueue := c.sendQueue ++ [message] }
    else
      { c with sendClosed := true, inHub := false }
  else c

/-- Broadcast case of `WSHub.run`, applied to every client in `h.clients`
(clients not in the hub are not iterated and are unchanged). -/
def broadcastStep (hub : HubState) (message : WSMessage) : HubState :=
  hub.map (fun p => (p.1, deliverOrEvict message p.2))

/-- Function `WSHub.getOnlineUsers`: the usernames of the clients in
`h.clients` whose username is non-empty. -/
def getOnlineUsers (hub : HubState) : List String :=
  (hub.filter (fun p => p.2.inHub)).filterMap
    (fun p => if p.2.username = "" then none else some p.2.username)

end WSHub

/-- Handler of `GET /api/users` in `setupRouter`: the online-user list and
`count = len(users)`. -/
def apiUsers (hub : HubState) : List String × Nat :=
  let users := WSHub.getOnlineUsers hub
  (users, users.length)

/-- Function `handleWebSocket`: after a successful upgrade, create the fresh
client object (identity `cid`) and push it through `hub.register`. -/
def handleWebSocket (hub : HubState) (cid : Nat) : HubState :=
  WSHub.registerStep ((cid, newWSClient) :: hub) cid

/-- Wire message marshalled by `broadcastUserJoin`. -/
def userJoinMsg (username : String) : WSMessage :=
  { type := "userJoin", user := username }

/-- Function `WSClient.broadcastUserJoin`: marshal the `userJoin` notice for
this client's username and push it through `hub.broadcast`, which `WSHub.run`
processes as a broadcast step over all hub clients. -/
def WSClient.broadcastUserJoin (hub : HubState) (cid : Nat) : HubState :=
  match lookupClient hub cid with
  | some c => WSHub.broadcastStep hub (userJoinMsg c.username)
  | none => hub

/-- Translation `handleGRPCMessages` applies to every message received from
the upstream gRPC stream before enqueueing it: the wire type is always
`"chat"`, whatever the upstream message was. -/
def translateGRPCMessage (msg : ChatMessage) (now : String) : WSMessage :=
  { type := "chat", user := msg.user, text := msg.text
    recipientUser := msg.recipientUser, timestamp := now }

/-- Message marshalled by `WSClient.sendError` for bridge-local errors. -/
def sendErrorMsg (text : String) : WSMessage :=
  { type := "error", text := text }

/-! ## Definitions: lock-usage traces

Each mutex-protected code path is transcribed, statement by statement, into a
sequence of lock and shared-structure events, so that the locking discipline
claimed by the spec can be checked mechanically. -/

/-- Alphabet of lock and shared-structure events. -/
inductive LockEv where
  | lockR
  | unlockR
  | lockW
  | unlockW
  | mapMutate
  | chanSend
  | chanClose
  | asyncSendDispatch
  deriving Repr, DecidableEq

/-- Trace of registration in `RealtimeChat`:
`s.mu.Lock(); s.connections[clientID] = ...; s.mu.Unlock()`. -/
def registerTrace : List LockEv := [.lockW, .mapMutate, .unlockW]

/-- Trace of unregistration in `RealtimeChat`:
`s.mu.Lock(); delete(s.connections, clientID); s.mu.Unlock()`. -/
def unregisterTrace : List LockEv := [.lockW, .mapMutate, .unlockW]

/-- Trace of `ChatServer.broadcast`: `RLock`, one `go sendRoutine(...)`
dispatch per non-excluded connection, `RUnlock` (deferred). -/
def broadcastTrace (reg : Registry) (excludeID : String) : List LockEv :=
  [LockEv.lockR]
    ++ reg.foldr (fun p acc =>
        (if p.1 = excludeID then [] else [LockEv.asyncSendDispatch]) ++ acc) []
    ++ [LockEv.unlockR]

/-- Trace of `ChatServer.sendToUser`: `RLock`, one `go sendRoutine(...)`
dispatch per matching connection, `RUnlock` (deferred). -/
def sendToUserTrace (reg : Registry) (username : String) : List LockEv :=
  [LockEv.lockR]
    ++ reg.foldr (fun p acc =>
        (if p.2.user = username then [LockEv.asyncSendDispatch] else []) ++ acc) []
    ++ [LockEv.unlockR]

/-- Trace of the register case of `WSHub.run`. -/
def hubRegisterTrace : List LockEv := [.lockW, .mapMutate, .unlockW]

/-- Trace of the unregister case of `WSHub.run` (the map delete and channel
close happen only when the client is still in `h.clients`). -/
def hubUnregisterTrace (clientInHub : Bool) : List LockEv :=
  [LockEv.lockW]
    ++ (if clientInHub then [LockEv.mapMutate, LockEv.chanClose] else [])
    ++ [LockEv.unlockW]

/-- Trace of the broadcast case of `WSHub.run`: `RLock`; for each client in
`h.clients` either a non-blocking channel send, or — on a full buffer — a
channel close followed by `delete(h.clients, client)`; `RUnlock`. -/
def hubBroadcastTrace (hub : HubState) : List LockEv :=
  [LockEv.lockR]
    ++ (hub.filter (fun p => p.2.inHub)).foldr (fun p acc =>
        (if p.2.sendQueue.length < sendCap then [LockEv.chanSend]
         else [LockEv.chanClose, LockEv.mapMutate]) ++ acc) []
    ++ [LockEv.unlockR]

/-- Discipline checker: every `mapMutate` in the trace must happen while the
write lock is held.  `r` and `w` say whether the read and write lock are
currently held. -/
def mutationsExclusive : Bool → Bool → List LockEv → Bool
  | _, _, [] => true
  | _, w, LockEv.lockR :: rest => mutationsExclusive true w rest
  | _, w, LockEv.unlockR :: rest => mutationsExclusive false w rest
  | r, _, LockEv.lockW :: rest => mutationsExclusive r true rest
  | r, _, LockEv.unlockW :: rest => mutationsExclusive r false rest
  | r, w, LockEv.mapMutate :: rest => w && mutationsExclusive r w rest
  | r, w, LockEv.chanSend :: rest => mutationsExclusive r w rest
  | r, w, LockEv.chanClose :: rest => mutationsExclusive r w rest
  | r, w, LockEv.asyncSendDispatch :: rest => mutationsExclusive r w rest

/-- Fixture shared by the hub-eviction results: a full outbound queue. -/
def fullQueue : List WSMessage :=
  List.replicate sendCap { type := "chat", text := "backlog" }

/-- Fixture shared by the hub-eviction results: a joined bridge client whose
outbound queue is full and whose upstream gRPC connection is open. -/
def fullClient : WSClient :=
  { username := "bob", sendQueue := fullQueue, sendClosed := false
    grpcConnOpen := true, inHub := true }

/-! ## Helper lemmas -/

/-- Targets of a broadcast are exactly the registry keys other than the
excluded id, with multiplicity. -/
theorem broadcast_map_fst (reg : Registry) (msg : ChatMessage) (ex : String) :
    (ChatServer.broadcast reg msg ex).map Prod.fst
      = (reg.map Prod.fst).filter (fun i => ¬ (i = ex)) := by
  induction reg with
  | nil => rfl
  | cons p rest ih =>
    obtain ⟨id, conn⟩ := p
    by_cases h : id = ex
    · simp [ChatServer.broadcast, h, ih]
    · simp [ChatServer.broadcast, h, ih]

/-- Every delivery dispatched by a broadcast carries the broadcast message. -/
theorem broadcast_msg_eq (reg : Registry) (msg : ChatMessage) (ex : String) :
    ∀ d ∈ ChatServer.broadcast reg msg ex, d.2 = msg := by
  induction reg with
  | nil => intro d hd; simp [ChatServer.broadcast] at hd
  | cons p rest ih =>
    obtain ⟨id, conn⟩ := p
    intro d hd
    by_cases h : id = ex
    · rw [ChatServer.broadcast, if_pos h] at hd
      exact ih d hd
    · rw [ChatServer.broadcast, if_neg h] at hd
      rcases List.mem_cons.mp hd with hd | hd
      · simp [hd]
      · exact ih d hd

/-- Membership in a broadcast's output, characterised by the registry. -/
theorem mem_broadcast_iff (reg : Registry) (msg : ChatMessage) (ex id : String)
    (m : ChatMessage) :
    (id, m) ∈ ChatServer.broadcast reg msg ex ↔
      (id ∈ reg.map Prod.fst ∧ ¬ (id = ex) ∧ m = msg) := by
  constructor
  · intro h
    refine ⟨?_, ?_, broadcast_msg_eq reg msg ex _ h⟩
    · have : id ∈ (ChatServer.broadcast reg msg ex).map Prod.fst :=
        List.mem_map.mpr ⟨(id, m), h, rfl⟩
      rw [broadcast_map_fst] at this
      exact (List.mem_filter.mp this).1
    · have : id ∈ (ChatServer.broadcast reg msg ex).map Prod.fst :=
        List.mem_map.mpr ⟨(id, m), h, rfl⟩
      rw [broadcast_map_fst] at this
      have := (List.mem_filter.mp this).2
      simpa using this
  · rintro ⟨hmem, hne, rfl⟩
    induction reg with
    | nil => simp at hmem
    | cons p rest ih =>
      obtain ⟨pid, pconn⟩ := p
      rcases List.mem_map.mp hmem with ⟨q, hq, hfst⟩
      rcases List.mem_cons.mp hq with hq | hq
      · subst hq
        simp only at hfst
        subst hfst
        rw [ChatServer.broadcast, if_neg hne]
        exact List.mem_cons_self _ _
      · by_cases hpe : pid = ex
        · rw [ChatServer.broadcast, if_pos hpe]
          exact ih (List.mem_map.mpr ⟨q, hq, hfst⟩)
        · rw [ChatServer.broadcast, if_neg hpe]
          exact List.mem_cons_of_mem _ (ih (List.mem_map.mpr ⟨q, hq, hfst⟩))

/-- Dispatches of `sendToUser` are exactly the connections owned by
`username`, in registry order, and `found` is true iff there is one. -/
theorem sendToUser_spec (reg : Registry) (username : String) (msg : ChatMessage) :
    (ChatServer.sendToUser reg username msg).1
        = (reg.filter (fun p => p.2.user = username)).map (fun p => (p.1, msg))
      ∧ ((ChatServer.sendToUser reg username msg).2 = true ↔
          (reg.filter (fun p => p.2.user = username)) ≠ []) := by
  induction reg with
  | nil => simp [ChatServer.sendToUser]
  | cons p rest ih =>
    obtain ⟨id, conn⟩ := p
    by_cases h : conn.user = username
    · simp [ChatServer.sendToUser, h, ih.1]
    · simpa [ChatServer.sendToUser, h] using ih

/-- Keys of the registry after a `delete`, as a filter on the old keys. -/
theorem registryRemove_map_fst (reg : Registry) (clientID : String) :
    (registryRemove reg clientID).map Prod.fst
      = (reg.map Prod.fst).filter (fun i => ¬ (i = clientID)) := by
  induction reg with
  | nil => rfl
  | cons p rest ih =>
    by_cases h : p.1 = clientID
    · simpa [registryRemove, List.filter_cons, h] using ih
    · simpa [registryRemove, List.filter_cons, h] using ih

/-- Looking up the head entry of the hub list. -/
theorem lookupClient_cons_self (hub : HubState) (cid : Nat) (c : WSClient) :
    lookupClient ((cid, c) :: hub) cid = some c := by
  simp [lookupClient, List.find?_cons]

/-- A hub broadcast transforms each client pointwise, so lookup commutes with
it. -/
theorem lookupClient_broadcastStep (hub : HubState) (m : WSMessage) (cid : Nat) :
    lookupClient (WSHub.broadcastStep hub m) cid
      = (lookupClient hub cid).map (WSHub.deliverOrEvict m) := by
  induction hub with
  | nil => rfl
  | cons p rest ih =>
    by_cases h : p.1 == cid
    · simp [lookupClient, WSHub.broadcastStep, List.find?_cons, h]
    · simp only [lookupClient, WSHub.broadcastStep, List.map_cons, List.find?_cons, h,
        Bool.false_eq_true, if_false] at ih ⊢
      exact ih

/-- Registering an absent identity leaves the hub unchanged. -/
theorem registerStep_of_fresh (hub : HubState) (cid : Nat)
    (hfresh : ∀ p ∈ hub, ¬ (p.1 = cid)) :
    WSHub.registerStep hub cid = hub := by
  induction hub with
  | nil => rfl
  | cons p rest ih =>
    simp only [WSHub.registerStep, List.map_cons]
    rw [if_neg (hfresh p (List.mem_cons_self p rest))]
    have := ih (fun q hq => hfresh q (List.mem_cons_of_mem p hq))
    simpa [WSHub.registerStep] using this

/-- Shape of the hub after `handleWebSocket` registers a fresh connection. -/
theorem handleWebSocket_eq (hub : HubState) (cid : Nat)
    (hfresh : ∀ p ∈ hub, ¬ (p.1 = cid)) :
    handleWebSocket hub cid = (cid, { newWSClient with inHub := true }) :: hub := by
  have h1 : WSHub.registerStep ((cid, newWSClient) :: hub) cid
      = (cid, { newWSClient with inHub := true }) :: WSHub.registerStep hub cid := by
    simp [WSHub.registerStep]
  rw [handleWebSocket, h1, registerStep_of_fresh hub cid hfresh]

/-- Events that touch no lock and no map are transparent to the checker. -/
theorem mutationsExclusive_append_neutral (l : List LockEv) (r w : Bool)
    (rest : List LockEv)
    (h : ∀ ev ∈ l, ev = LockEv.asyncSendDispatch ∨ ev = LockEv.chanSend) :
    mutationsExclusive r w (l ++ rest) = mutationsExclusive r w rest := by
  induction l with
  | nil => rfl
  | cons ev tail ih =>
    rcases h ev (List.mem_cons_self _ _) with h1 | h1 <;> subst h1 <;>
      simpa [mutationsExclusive] using
        ih (fun e he => h e (List.mem_cons_of_mem _ he))

/-- The loop body of `broadcastTrace` only dispatches asynchronous sends. -/
theorem broadcastTrace_mid_dispatch (reg : Registry) (ex : String) :
    ∀ ev ∈ reg.foldr (fun p acc =>
        (if p.1 = ex then [] else [LockEv.asyncSendDispatch]) ++ acc) [],
      ev = LockEv.asyncSendDispatch := by
  induction reg with
  | nil => simp
  | cons p rest ih =>
    intro ev hev
    simp only [List.foldr_cons, List.mem_append] at hev
    rcases hev with hev | hev
    · by_cases h : p.1 = ex
      · simp [h] at hev
      · simp [h] at hev; exact hev
    · exact ih ev hev

/-- The loop body of `sendToUserTrace` only dispatches asynchronous sends. -/
theorem sendToUserTrace_mid_dispatch (reg : Registry) (u : String) :
    ∀ ev ∈ reg.foldr (fun p acc =>
        (if p.2.user = u then [LockEv.asyncSendDispatch] else []) ++ acc) [],
      ev = LockEv.asyncSendDispatch := by
  induction reg with
  | nil => simp
  | cons p rest ih =>
    intro ev hev
    simp only [List.foldr_cons, List.mem_append] at hev
    rcases hev with hev | hev
    · by_cases h : p.2.user = u
      · simp [h] at hev; exact hev
      · simp [h] at hev
    · exact ih ev hev

/-! ## Claim theorems -/

/-- C1: for every registry state and message, `Broadcast(msg, excludeId)`
delivers `msg` to exactly the registered connections whose id is not
`excludeId` (same ids, same multiplicity, every delivery carrying `msg`), and
never delivers to the connection registered under `excludeId`. -/
theorem claim_C1_broadcast_excludes
    (reg : Registry) (msg : ChatMessage) (excludeId : String) :
    ((ChatServer.broadcast reg msg excludeId).map Prod.fst
        = (reg.map Prod.fst).filter (fun i => ¬ (i = excludeId)))
      ∧ (∀ d ∈ ChatServer.broadcast reg msg excludeId, d.2 = msg)
      ∧ (∀ m : ChatMessage,
          (excludeId, m) ∉ ChatServer.broadcast reg msg excludeId) := by
  refine ⟨broadcast_map_fst reg msg excludeId, broadcast_msg_eq reg msg excludeId, ?_⟩
  intro m hm
  have := (mem_broadcast_iff reg msg excludeId excludeId m).mp hm
  exact this.2.1 rfl

/-- C2: `sendToUser(u, msg)` delivers to exactly the connections owned by the
recipient, returns `found` iff that set is non-empty, and when it is empty the
private-message branch sends the sender exactly the echo followed by one
"not found or is offline" system message — nothing to anyone else. -/
theorem claim_C2_deliverToUser (reg : Registry) (msg : ChatMessage) (senderId : String) :
    ((ChatServer.sendToUser reg msg.recipientUser msg).1
        = (reg.filter (fun p => p.2.user = msg.recipientUser)).map (fun p => (p.1, msg)))
      ∧ ((ChatServer.sendToUser reg msg.recipientUser msg).2 = true ↔
          (reg.filter (fun p => p.2.user = msg.recipientUser)) ≠ [])
      ∧ ((reg.filter (fun p => p.2.user = msg.recipientUser)) = [] →
          handlePrivateMessage reg senderId msg
            = [(senderId, msg), (senderId, notFoundMsg msg.recipientUser)]) := by
  obtain ⟨h1, h2⟩ := sendToUser_spec reg msg.recipientUser msg
  refine ⟨h1, h2, fun hempty => ?_⟩
  have hfound : (ChatServer.sendToUser reg msg.recipientUser msg).2 = false := by
    rcases Bool.eq_false_or_eq_true (ChatServer.sendToUser reg msg.recipientUser msg).2
      with h | h
    · exact absurd hempty (h2.mp h)
    · exact h
  simp [handlePrivateMessage, h1, hempty, hfound]

/-- Witness for C2 at a registry holding only alice's connection, with a
message addressed to the absent bob. -/
theorem claim_C2_witness :
    handlePrivateMessage [("alice_1", ⟨"alice"⟩)] "alice_1" ⟨"alice", "hi", "bob"⟩
      = [("alice_1", ⟨"alice", "hi", "bob"⟩), ("alice_1", notFoundMsg "bob")] :=
  (claim_C2_deliverToUser [("alice_1", ⟨"alice"⟩)] ⟨"alice", "hi", "bob"⟩ "alice_1").2.2
    (by decide)

/-- C4: a first message with an empty username makes `RealtimeChat` return
the invalid-argument error immediately: no further message is processed, the
session never reaches the `Active` loop, the registry is returned unchanged,
and no delivery is dispatched. -/
theorem claim_C4_empty_username (reg : Registry) (clientID : String)
    (firstMsg : ChatMessage) (rest : List ChatMessage) (h : firstMsg.user = "") :
    RealtimeChat reg clientID (firstMsg :: rest)
      = { finalReg := reg, outputs := []
          retErr := some ⟨.invalidArgument, "Username cannot be empty"⟩ } := by
  simp [RealtimeChat, h]

/-- Witness for C4: an anonymous handshake against an empty registry. -/
theorem claim_C4_witness :
    RealtimeChat [] "x_1" [⟨"", "has joined", ""⟩, ⟨"", "later", ""⟩]
      = { finalReg := [], outputs := []
          retErr := some ⟨.invalidArgument, "Username cannot be empty"⟩ } :=
  claim_C4_empty_username [] "x_1" ⟨"", "has joined", ""⟩ [⟨"", "later", ""⟩] rfl

/-- C5: the session cleanup removes the connection first and only then
broadcasts the "left" notice with no exclusion, so (over a registry with
distinct, non-empty connection ids) each remaining connection receives the
notice exactly once, the departed id receives nothing from it, and no
broadcast over the post-removal registry can ever target the departed id. -/
theorem claim_C5_unregister_then_leave (reg : Registry) (clientID userName : String)
    (hnodup : (reg.map Prod.fst).Nodup)
    (hne : ∀ id ∈ reg.map Prod.fst, ¬ (id = "")) :
    ((sessionCleanup reg clientID userName).1 = registryRemove reg clientID)
      ∧ (∀ id ∈ (registryRemove reg clientID).map Prod.fst,
          ((sessionCleanup reg clientID userName).2.map Prod.fst).count id = 1)
      ∧ (∀ m : ChatMessage, (clientID, m) ∉ (sessionCleanup reg clientID userName).2)
      ∧ (∀ (msg m : ChatMessage) (ex : String),
          (clientID, m) ∉ ChatServer.broadcast (registryRemove reg clientID) msg ex) := by
  have hkeys : (registryRemove reg clientID).map Prod.fst
      = (reg.map Prod.fst).filter (fun i => ¬ (i = clientID)) :=
    registryRemove_map_fst reg clientID
  have hnotkey : ∀ m msg ex,
      (clientID, m) ∉ ChatServer.broadcast (registryRemove reg clientID) msg ex := by
    intro m msg ex hm
    have := (mem_broadcast_iff (registryRemove reg clientID) msg ex clientID m).mp hm
    have hmem := this.1
    rw [hkeys] at hmem
    have := (List.mem_filter.mp hmem).2
    simp at this
  have hnodup2 : ((registryRemove reg clientID).map Prod.fst).Nodup := by
    rw [hkeys]; exact hnodup.filter _
  refine ⟨rfl, ?_, ?_, fun msg m ex => hnotkey m msg ex⟩
  · intro id hid
    have hid_ne : ¬ (id = "") := by
      apply hne
      rw [hkeys] at hid
      exact (List.mem_filter.mp hid).1
    have hmap : ((sessionCleanup reg clientID userName).2.map Prod.fst)
        = ((registryRemove reg clientID).map Prod.fst).filter (fun i => ¬ (i = "")) :=
      broadcast_map_fst (registryRemove reg clientID) (leaveMsg userName) ""
    rw [hmap, List.count_filter (by simpa using hid_ne)]
    exact List.count_eq_one_of_mem hnodup2 hid
  · intro m
    exact hnotkey m (leaveMsg userName) ""

/-- Witness for C5: alice leaves a two-connection registry; bob's connection
receives the notice once and alice's departed id receives nothing, there or
from a later broadcast. -/
theorem claim_C5_witness :
    ((sessionCleanup [("alice_1", ⟨"alice"⟩), ("bob_1", ⟨"bob"⟩)] "alice_1" "alice").1
        = registryRemove [("alice_1", ⟨"alice"⟩), ("bob_1", ⟨"bob"⟩)] "alice_1")
      ∧ (((sessionCleanup [("alice_1", ⟨"alice"⟩), ("bob_1", ⟨"bob"⟩)]
            "alice_1" "alice").2.map Prod.fst).count "bob_1" = 1)
      ∧ (("alice_1", leaveMsg "alice")
          ∉ (sessionCleanup [("alice_1", ⟨"alice"⟩), ("bob_1", ⟨"bob"⟩)]
              "alice_1" "alice").2)
      ∧ (("alice_1", (⟨"bob", "more", ""⟩ : ChatMessage))
          ∉ ChatServer.broadcast
              (registryRemove [("alice_1", ⟨"alice"⟩), ("bob_1", ⟨"bob"⟩)] "alice_1")
              ⟨"bob", "more", ""⟩ "bob_1") := by
  have h := claim_C5_unregister_then_leave
    [("alice_1", ⟨"alice"⟩), ("bob_1", ⟨"bob"⟩)] "alice_1" "alice"
    (by decide) (by decide)
  exact ⟨h.1, h.2.1 "bob_1" (by decide), h.2.2.1 (leaveMsg "alice"),
    h.2.2.2 ⟨"bob", "more", ""⟩ ⟨"bob", "more", ""⟩ "bob_1"⟩

/-- C7: a received message with a non-empty recipient is always echoed back to
the sending connection itself, whether or not any recipient was found. -/
theorem claim_C7_always_echo (reg : Registry) (senderId : String) (msg : ChatMessage)
    (h : ¬ (msg.recipientUser = "")) :
    (senderId, msg) ∈ handleMessage reg senderId msg := by
  rw [handleMessage, if_neg h]
  unfold handlePrivateMessage
  simp

/-- Witness for C7: even against an empty registry (recipient surely absent),
the sender still receives the echo. -/
theorem claim_C7_witness :
    ("alice_1", (⟨"alice", "hi", "bob"⟩ : ChatMessage))
      ∈ handleMessage [] "alice_1" ⟨"alice", "hi", "bob"⟩ :=
  claim_C7_always_echo [] "alice_1" ⟨"alice", "hi", "bob"⟩ (by decide)

/-- C3: evaluated at the failing input — a broadcast arriving while a joined
client's 256-slot queue is full evicts the client (queue closed, removed from
the hub's client set) but leaves its upstream gRPC connection open; the
subsequent unregister pass, finding the client already out of the hub, does
not close it either, so the upstream session is never released. -/
theorem claim_C3_eviction_never_releases_upstream :
    (lookupClient
        (WSHub.broadcastStep [(0, fullClient)] { type := "chat", text := "y" }) 0
      = some { fullClient with sendClosed := true, inHub := false })
      ∧ (lookupClient
            (WSHub.unregisterStep
              (WSHub.broadcastStep [(0, fullClient)] { type := "chat", text := "y" })
              0) 0
          = some { fullClient with sendClosed := true, inHub := false })
      ∧ ((({ fullClient with sendClosed := true, inHub := false } : WSClient)).grpcConnOpen
          = true) := by
  have hfull : ¬ (fullClient.sendQueue.length < sendCap) := by
    simp [fullClient, fullQueue]
  have hdoe : WSHub.deliverOrEvict { type := "chat", text := "y" } fullClient
      = { fullClient with sendClosed := true, inHub := false } := by
    rw [WSHub.deliverOrEvict, if_pos (show fullClient.inHub = true from rfl),
      if_neg hfull]
  have hb : WSHub.broadcastStep [(0, fullClient)] { type := "chat", text := "y" }
      = [(0, { fullClient with sendClosed := true, inHub := false })] := by
    simp [WSHub.broadcastStep, hdoe]
  refine ⟨?_, ?_, rfl⟩
  · rw [hb]; exact lookupClient_cons_self [] 0 _
  · rw [hb]
    have : WSHub.unregisterStep
        [(0, { fullClient with sendClosed := true, inHub := false })] 0
        = [(0, { fullClient with sendClosed := true, inHub := false })] := by
      simp [WSHub.unregisterStep, fullClient]
    rw [this]
    exact lookupClient_cons_self [] 0 _

/-- C6 counterexample: with a single joined client alice (identity 0), the
bridge-local userJoin notice produced by alice's own join is enqueued onto
alice's own queue — the joining client itself does receive it. -/
theorem claim_C6_counterexample :
    lookupClient (WSClient.broadcastUserJoin
        [(0, { username := "alice", sendQueue := [], sendClosed := false
               grpcConnOpen := true, inHub := true })] 0) 0
      = some { username := "alice", sendQueue := [userJoinMsg "alice"]
               sendClosed := false, grpcConnOpen := true, inHub := true } :=
  rfl

/-- C6 amended: the bridge-local userJoin notice is delivered to every bridge
client in the hub whose queue has room — including the joining client itself,
since the hub broadcast has no exclusion. -/
theorem claim_C6_userJoin_all_clients (hub : HubState) (cid cid' : Nat)
    (c c' : WSClient)
    (h : lookupClient hub cid = some c)
    (h' : lookupClient hub cid' = some c')
    (hin : c'.inHub = true) (hroom : c'.sendQueue.length < sendCap) :
    lookupClient (WSClient.broadcastUserJoin hub cid) cid'
      = some { c' with sendQueue := c'.sendQueue ++ [userJoinMsg c.username] } := by
  simp only [WSClient.broadcastUserJoin, h]
  rw [lookupClient_broadcastStep, h']
  simp [WSHub.deliverOrEvict, hin, hroom]

/-- Witness for C6 (amended): in a hub holding joined clients alice (0) and
bob (1), alice's own join notice lands in alice's own queue. -/
theorem claim_C6_witness :
    lookupClient (WSClient.broadcastUserJoin
        [(0, ⟨"alice", [], false, true, true⟩), (1, ⟨"bob", [], false, true, true⟩)]
        0) 0
      = some ⟨"alice", [userJoinMsg "alice"], false, true, true⟩ :=
  claim_C6_userJoin_all_clients
    [(0, ⟨"alice", [], false, true, true⟩), (1, ⟨"bob", [], false, true, true⟩)]
    0 0 ⟨"alice", [], false, true, true⟩ ⟨"alice", [], false, true, true⟩
    rfl rfl rfl (by decide)

/-- C8 counterexample: the upstream RecipientNotFound report for carol is
relayed to the bridge client as a chat-typed wire message — neither
system-typed nor error-typed. -/
theorem claim_C8_counterexample :
    ((translateGRPCMessage (notFoundMsg "carol") "2026-10-11T00:00:00Z").type = "chat")
      ∧ ¬ ((translateGRPCMessage (notFoundMsg "carol") "2026-10-11T00:00:00Z").type
            = "system")
      ∧ ¬ ((translateGRPCMessage (notFoundMsg "carol") "2026-10-11T00:00:00Z").type
            = "error") := by
  refine ⟨rfl, ?_, ?_⟩ <;> decide

/-- C8 amended: every message relayed from the upstream stream reaches the
bridge client chat-typed with the upstream user and text preserved (so the
RecipientNotFound report arrives as a chat-typed message from "System"),
while bridge-locally generated failures are error-typed. -/
theorem claim_C8_failure_surface_types (msg : ChatMessage) (now text : String) :
    ((translateGRPCMessage msg now).type = "chat")
      ∧ ((translateGRPCMessage msg now).user = msg.user)
      ∧ ((translateGRPCMessage msg now).text = msg.text)
      ∧ ((sendErrorMsg text).type = "error") :=
  ⟨rfl, rfl, rfl, rfl⟩

/-- C9: checked against the lock traces — registry mutation in the gRPC
server and in the hub's register/unregister cases happens under the exclusive
lock, and `broadcast`/`sendToUser` hold only the read lock around their scan
with every per-recipient send dispatched asynchronously; but the hub's
broadcast case, evaluated at a hub holding one full-queue client, performs
the structural map delete of the evicted client while holding only the read
lock. -/
theorem claim_C9_mutation_lock_discipline :
    (mutationsExclusive false false registerTrace = true)
      ∧ (mutationsExclusive false false unregisterTrace = true)
      ∧ (mutationsExclusive false false hubRegisterTrace = true)
      ∧ (∀ b : Bool, mutationsExclusive false false (hubUnregisterTrace b) = true)
      ∧ (∀ (reg : Registry) (ex : String),
          mutationsExclusive false false (broadcastTrace reg ex) = true)
      ∧ (∀ (reg : Registry) (u : String),
          mutationsExclusive false false (sendToUserTrace reg u) = true)
      ∧ (mutationsExclusive false false (hubBroadcastTrace [(0, fullClient)])
          = false) := by
  have hfull : ¬ (fullClient.sendQueue.length < sendCap) := by
    simp [fullClient, fullQueue]
  have htrace : hubBroadcastTrace [(0, fullClient)]
      = [LockEv.lockR, LockEv.chanClose, LockEv.mapMutate, LockEv.unlockR] := by
    simp [hubBroadcastTrace, List.filter_cons,
      show fullClient.inHub = true from rfl, hfull]
  refine ⟨rfl, rfl, rfl, ?_, ?_, ?_, by rw [htrace]; rfl⟩
  · intro b; cases b <;> rfl
  · intro reg ex
    unfold broadcastTrace
    rw [List.append_assoc, List.singleton_append]
    simp only [mutationsExclusive]
    rw [mutationsExclusive_append_neutral _ _ _ _
      (fun ev hev => Or.inl (broadcastTrace_mid_dispatch reg ex ev hev))]
    rfl
  · intro reg u
    unfold sendToUserTrace
    rw [List.append_assoc, List.singleton_append]
    simp only [mutationsExclusive]
    rw [mutationsExclusive_append_neutral _ _ _ _
      (fun ev hev => Or.inl (sendToUserTrace_mid_dispatch reg u ev hev))]
    rfl

/-- C10: a bridge client that connected over WebSocket but has not yet sent a
join message carries the empty username, sits in the hub's client set,
receives hub broadcasts, yet is invisible to `getOnlineUsers` and to the
`/api/users` response (list and count). -/
theorem claim_C10_unjoined_client (hub : HubState) (cid : Nat) (m : WSMessage)
    (hfresh : ∀ p ∈ hub, ¬ (p.1 = cid)) :
    (lookupClient (handleWebSocket hub cid) cid
        = some { username := "", sendQueue := [], sendClosed := false
                 grpcConnOpen := false, inHub := true })
      ∧ (lookupClient (WSHub.broadcastStep (handleWebSocket hub cid) m) cid
          = some { username := "", sendQueue := [m], sendClosed := false
                   grpcConnOpen := false, inHub := true })
      ∧ (WSHub.getOnlineUsers (handleWebSocket hub cid) = WSHub.getOnlineUsers hub)
      ∧ (apiUsers (handleWebSocket hub cid)
          = (WSHub.getOnlineUsers hub, (WSHub.getOnlineUsers hub).length)) := by
  have heq := handleWebSocket_eq hub cid hfresh
  have h1 : lookupClient (handleWebSocket hub cid) cid
      = some { newWSClient with inHub := true } := by
    rw [heq]; exact lookupClient_cons_self hub cid _
  have h3 : WSHub.getOnlineUsers (handleWebSocket hub cid)
      = WSHub.getOnlineUsers hub := by
    rw [heq]
    simp [WSHub.getOnlineUsers, newWSClient, List.filter_cons]
  refine ⟨h1, ?_, h3, ?_⟩
  · rw [lookupClient_broadcastStep, h1]
    simp [WSHub.deliverOrEvict, newWSClient, sendCap]
  · simp [apiUsers, h3]

/-- Witness for C10: the first connection (identity 0) into an empty hub. -/
theorem claim_C10_witness :
    (lookupClient (handleWebSocket [] 0) 0
        = some { username := "", sendQueue := [], sendClosed := false
                 grpcConnOpen := false, inHub := true })
      ∧ (lookupClient (WSHub.broadcastStep (handleWebSocket [] 0)
            { type := "chat", user := "alice", text := "hi" }) 0
          = some { username := ""
                   sendQueue := [{ type := "chat", user := "alice", text := "hi" }]
                   sendClosed := false, grpcConnOpen := false, inHub := true })
      ∧ (WSHub.getOnlineUsers (handleWebSocket [] 0) = WSHub.getOnlineUsers [])
      ∧ (apiUsers (handleWebSocket [] 0)
          = (WSHub.getOnlineUsers [], (WSHub.getOnlineUsers []).length)) :=
  claim_C10_unjoined_client [] 0 { type := "chat", user := "alice", text := "hi" }
    (by simp)
